import Mathlib

/-!
# Verification of the `caring/go-packages` logging core

A shallow embedding, in Lean 4, of the structured logging package of
`github.com/caring/go-packages` (package `logging`, current revision:
`logger.go`, `config.go`, `field.go`, `internal/exit/exit.go`,
`internal/writer/kinesis.go`), together with theorems settling the frozen
claims about it.

Conventions of the embedding:
* Go strings are `String`; Go `int8`/`int64` are `Int`; Go byte slices are
  `List Nat`.
* Fallible Go functions returning `(T, error)` are modelled as explicit
  pairs of options, mirroring each `return` site of the source.
* The zap logger dependency (v1.13.0) is modelled by the behaviour of its
  core: a record is written iff the configured minimum level admits the
  record's level; `Logger.Panic` always panics and `FatalLevel`/`PanicLevel`
  checked entries are non-nil even when the level is disabled, exactly as in
  zap's `logger.check`.
* For the copy-on-write claim, Go slices are modelled with their real
  len/cap/backing-array semantics (`growslice` growth rule for small
  slices of 64-byte elements), because the claim is precisely about
  backing-array aliasing.
-/

namespace Caring

/-! ## Field (field.go)

`Field` wraps a single zap field.  A zap field is a tagged union of a key
and a typed value; the kinds used by this package's factories are strings,
64-bit integers, doubles, booleans, sequences of each, and an opaque
fallback.  We model the kinds that the logging core itself constructs and
an opaque constructor for the escape hatch. -/

inductive ZapField where
  | str (key : String) (val : String)
  | int64 (key : String) (val : Int)
  | float64 (key : String) (num : Int) (den : Int)
  | boolF (key : String) (val : Bool)
  | strs (key : String) (vals : List String)
  | int64s (key : String) (vals : List Int)
  | bools (key : String) (vals : List Bool)
  | anyF (key : String) (repr : String)
  deriving Repr, DecidableEq

/-- Source `Field` (field.go): a wrapping struct holding one zap field. -/
structure Field where
  field : ZapField
  deriving Repr, DecidableEq

/-- Source `String(k, v)` factory: a string-typed field. -/
def StringField (k v : String) : Field := ⟨ZapField.str k v⟩

/-- Source `Int64(k, v)` factory: an int64-typed field. -/
def Int64Field (k : String) (v : Int) : Field := ⟨ZapField.int64 k v⟩

/-- Source `Bool(k, v)` factory: a bool-typed field. -/
def BoolField (k : String) (v : Bool) : Field := ⟨ZapField.boolF k v⟩

/-! ## Level (level.go is absent from the tree; modelled from the spec)

Modelled from the spec: the source tree carries `level_test.go` but not
`level.go`.  The spec says Level is "a small integer enumeration with a
strict total order: Debug < Info < Warn < Error < DPanic < Panic < Fatal;
zero-value is Info", rendered/parsed like zap's `zapcore.Level` (the tests
exercise exactly zap's text behaviour, and `NewLogger` casts the value
with `zapcore.Level(c.LogLevel)`, so the numbering is zap's:
Debug = -1 … Fatal = 5). -/

abbrev Level := Int

def DebugLevel : Int := -1
def InfoLevel : Int := 0
def WarnLevel : Int := 1
def ErrorLevel : Int := 2
def DPanicLevel : Int := 3
def PanicLevel : Int := 4
def FatalLevel : Int := 5

/-- ASCII lower-casing of one character, as Go's `bytes.ToLower` does per
byte on ASCII input. -/
def lowerChar (c : Char) : Char :=
  if 65 ≤ c.toNat ∧ c.toNat ≤ 90 then Char.ofNat (c.toNat + 32) else c

/-- ASCII lower-casing, as Go's `bytes.ToLower` on ASCII level names. -/
def asciiLower (s : String) : String :=
  String.mk (s.data.map lowerChar)

/-- Modelled from the spec: one case arm of `Level.unmarshalText` — maps a
level name in canonical lower or upper case (or the empty string, which
"makes the zero value useful") to its Level. -/
def unmarshalTextExact (s : String) : Option Level :=
  if s = "debug" ∨ s = "DEBUG" then some DebugLevel
  else if s = "info" ∨ s = "INFO" ∨ s = "" then some InfoLevel
  else if s = "warn" ∨ s = "WARN" then some WarnLevel
  else if s = "error" ∨ s = "ERROR" then some ErrorLevel
  else if s = "dpanic" ∨ s = "DPANIC" then some DPanicLevel
  else if s = "panic" ∨ s = "PANIC" then some PanicLevel
  else if s = "fatal" ∨ s = "FATAL" then some FatalLevel
  else none

/-- Modelled from the spec: `Level.UnmarshalText` on a non-nil receiver —
tries the text as given, then lower-cased, and otherwise fails with an
"unrecognized level" error carrying the offending text. -/
def levelUnmarshalText (s : String) : Except String Level :=
  match unmarshalTextExact s with
  | some l => Except.ok l
  | none =>
    match unmarshalTextExact (asciiLower s) with
    | some l => Except.ok l
    | none => Except.error ("unrecognized level: " ++ s)

/-- Modelled from the spec: `Level.Set` delegates to `UnmarshalText`
(flag.Value support), as exercised by `Test_LevelAsFlagValue`. -/
def levelSet (s : String) : Except String Level := levelUnmarshalText s

/-! ## The zap pipeline (go.uber.org/zap v1.13.0, external dependency)

The repo's `Logger` holds two `*zap.Logger` handles.  For the claims we
need exactly zap's gating behaviour: a record reaches the core iff the
core's configured minimum level admits the record's level; `logger.check`
returns a non-nil `CheckedEntry` for `PanicLevel` and `FatalLevel` even
when the level is disabled (`ce.Should` on a nil entry allocates one with
no cores), so the panic / fatal control-flow effect is unconditional while
the write itself stays gated. -/

structure ZapLogger where
  minLevel : Int
  development : Bool
  deriving Repr, DecidableEq

/-- One emitted record: its level, message and ordered field list. -/
structure Record where
  level : Int
  msg : String
  fields : List ZapField
  deriving Repr, DecidableEq

/-- The zap core write: emits iff the configured minimum level admits the
record's level, else silently discards. -/
def zapWrite (z : ZapLogger) (lvl : Int) (msg : String) (fs : List ZapField) :
    Option Record :=
  if z.minLevel ≤ lvl then some ⟨lvl, msg, fs⟩ else none

/-! ## Logger (logger.go, current revision) -/

/-- Source `Logger` (logger.go): service identity, accumulated context and the two
pipeline handles.  `closers` is modelled separately where `Close` is
settled. -/
structure Logger where
  serviceName : String
  correlationID : String
  traceabilityID : String
  clientID : String
  userID : String
  endpoint : String
  env : String
  fields : List Field
  loggerName : String
  monitorLogger : ZapLogger
  reportingLogger : ZapLogger
  deriving Repr, DecidableEq

/-- The zero value of `zap.Field`, used by `make([]zap.Field, total)` before
the slots are filled. -/
def zeroZapField : ZapField := ZapField.str "" ""

/-- The `for … range` fill loops of `getZapFields`: writes the fields'
zap values at consecutive indices `i, i+1, …` of `zapped`. -/
def fillFrom (zapped : List ZapField) (i : Nat) (fs : List Field) : List ZapField :=
  match fs with
  | [] => zapped
  | f :: rest => fillFrom (zapped.set i f.field) (i + 1) rest

/-- Source `Logger.getZapFields` (logger.go): allocates a slice of length
`6 + len(fields) + len(l.fields)`, writes the six identity fields at
indices 0–5, then the accumulated fields, then the call-site fields. -/
def Logger.getZapFields (l : Logger) (fields : List Field) : List ZapField :=
  let internalFieldcount := 6
  let total := internalFieldcount + fields.length + l.fields.length
  let zapped := List.replicate total zeroZapField
  let zapped := zapped.set 0 (StringField "service" l.serviceName).field
  let zapped := zapped.set 1 (StringField "endpoint" l.endpoint).field
  let zapped := zapped.set 2 (StringField "traceabilityID" l.traceabilityID).field
  let zapped := zapped.set 3 (StringField "correlationID" l.correlationID).field
  let zapped := zapped.set 4 (StringField "userID" l.userID).field
  let zapped := zapped.set 5 (StringField "clientID" l.clientID).field
  let zapped := fillFrom zapped internalFieldcount l.fields
  fillFrom zapped (internalFieldcount + l.fields.length) fields

/-- The six identity fields of a record, in the order `getZapFields`
writes them. -/
def Logger.identityFields (l : Logger) : List ZapField :=
  [ZapField.str "service" l.serviceName,
   ZapField.str "endpoint" l.endpoint,
   ZapField.str "traceabilityID" l.traceabilityID,
   ZapField.str "correlationID" l.correlationID,
   ZapField.str "userID" l.userID,
   ZapField.str "clientID" l.clientID]

/-- Source `Logger.Debug`: assembles the fields and writes at debug level to the
monitor pipeline. -/
def Logger.Debug (l : Logger) (message : String) (additionalFields : List Field) :
    Option Record :=
  zapWrite l.monitorLogger DebugLevel message (l.getZapFields additionalFields)

/-- Source `Logger.Report`: assembles the fields and writes at info level to the
reporting (business-event) pipeline. -/
def Logger.Report (l : Logger) (message : String) (additionalFields : List Field) :
    Option Record :=
  zapWrite l.reportingLogger InfoLevel message (l.getZapFields additionalFields)

/-- Source `Logger.Info`: assembles the fields and writes at info level to the
monitor pipeline. -/
def Logger.Info (l : Logger) (message : String) (additionalFields : List Field) :
    Option Record :=
  zapWrite l.monitorLogger InfoLevel message (l.getZapFields additionalFields)

/-- Source `Logger.Warn`: assembles the fields and writes at warn level to the
monitor pipeline. -/
def Logger.Warn (l : Logger) (message : String) (additionalFields : List Field) :
    Option Record :=
  zapWrite l.monitorLogger WarnLevel message (l.getZapFields additionalFields)

/-- Source `Logger.Error`: assembles the fields and writes at error level to the
monitor pipeline. -/
def Logger.Error (l : Logger) (message : String) (additionalFields : List Field) :
    Option Record :=
  zapWrite l.monitorLogger ErrorLevel message (l.getZapFields additionalFields)

/-- Source `Logger.Panic` delegates to zap's `Logger.Panic`: the record is gated by
the core's minimum level, but the checked entry is non-nil regardless, so
`ce.Write` panics unconditionally.  The `Bool` component records whether a
panic was raised. -/
def Logger.Panic (l : Logger) (message : String) (additionalFields : List Field) :
    Option Record × Bool :=
  (zapWrite l.monitorLogger PanicLevel message (l.getZapFields additionalFields), true)

/-- Source `Logger.DPanic` delegates to zap's `Logger.DPanic`: the record is gated
by the core's minimum level; a panic is raised iff the zap logger is in
development mode. -/
def Logger.DPanic (l : Logger) (message : String) (additionalFields : List Field) :
    Option Record × Bool :=
  (zapWrite l.monitorLogger DPanicLevel message (l.getZapFields additionalFields),
   l.monitorLogger.development)

/-- Source `Logger.Fatal` (logger.go): obtains a checked entry at fatal level
(non-nil in zap even when the level is disabled), overrides its
should-behaviour to `WriteThenNoop` so zap itself does not exit, writes the
record iff the core admits fatal, then calls `exit.Exit()` unconditionally.
The `Nat` component counts the `exit.Exit` invocations of the call. -/
def Logger.Fatal (l : Logger) (message : String) (additionalFields : List Field) :
    Option Record × Nat :=
  (zapWrite l.monitorLogger FatalLevel message (l.getZapFields additionalFields), 1)

/-! ## Context derivation (logger.go: `with`, `NewChild`, `With`) -/

/-- Source `FieldOpts` (logger.go): per-attribute overwrite values, reset flags and
the accumulated-fields overwrite flag. -/
structure FieldOpts where
  Endpoint : String := ""
  CorrelationID : String := ""
  TraceabilityID : String := ""
  ClientID : String := ""
  UserID : String := ""
  OverwriteAccumulatedFields : Bool := false
  ResetEndpoint : Bool := false
  ResetCorrelationID : Bool := false
  ResetTraceabilityID : Bool := false
  ResetClientID : Bool := false
  ResetUserID : Bool := false
  deriving Repr, DecidableEq

/-- Source `Logger.accumulateFields`: appends the given fields onto the existing
accumulated fields. -/
def Logger.accumulateFields (l : Logger) (f : List Field) : Logger :=
  { l with fields := l.fields ++ f }

/-- Source `Logger.writeFields`: overwrites the accumulated fields with the fields
passed in (the source's dead `if f == nil` branch is immediately overridden
by the unconditional `l.fields = f`; a nil slice is observationally the
empty sequence). -/
def Logger.writeFields (l : Logger) (f : List Field) : Logger :=
  { l with fields := f }

/-- The first `if` block of `Logger.with`: the endpoint attribute. -/
def Logger.mergeEndpoint (l : Logger) (o : FieldOpts) : Logger :=
  if o.ResetEndpoint then { l with endpoint := "" }
  else if o.Endpoint ≠ "" then { l with endpoint := o.Endpoint } else l

/-- The second `if` block of `Logger.with`: the correlation ID. -/
def Logger.mergeCorrelationID (l : Logger) (o : FieldOpts) : Logger :=
  if o.ResetCorrelationID then { l with correlationID := "" }
  else if o.CorrelationID ≠ "" then { l with correlationID := o.CorrelationID } else l

/-- The third `if` block of `Logger.with`: the traceability ID. -/
def Logger.mergeTraceabilityID (l : Logger) (o : FieldOpts) : Logger :=
  if o.ResetTraceabilityID then { l with traceabilityID := "" }
  else if o.TraceabilityID ≠ "" then { l with traceabilityID := o.TraceabilityID } else l

/-- The fourth `if` block of `Logger.with`: the client ID. -/
def Logger.mergeClientID (l : Logger) (o : FieldOpts) : Logger :=
  if o.ResetClientID then { l with clientID := "" }
  else if o.ClientID ≠ "" then { l with clientID := o.ClientID } else l

/-- The fifth `if` block of `Logger.with`: the user ID. -/
def Logger.mergeUserID (l : Logger) (o : FieldOpts) : Logger :=
  if o.ResetUserID then { l with userID := "" }
  else if o.UserID ≠ "" then { l with userID := o.UserID } else l

/-- Source `Logger.with` (lower-case, logger.go; `with` is a reserved word in
Lean): `nil` options append the call-site fields; otherwise each identity
attribute is reset if its reset flag is set, else overwritten when a
non-zero value is supplied, else inherited (the five `if` blocks of the
source, applied in source order); finally the accumulated fields are
replaced or extended according to `OverwriteAccumulatedFields`. -/
def Logger.withOpts (l : Logger) (opts : Option FieldOpts) (fields : List Field) :
    Logger :=
  match opts with
  | none => { l with fields := l.fields ++ fields }
  | some o =>
    let l := l.mergeEndpoint o
    let l := l.mergeCorrelationID o
    let l := l.mergeTraceabilityID o
    let l := l.mergeClientID o
    let l := l.mergeUserID o
    if o.OverwriteAccumulatedFields then l.writeFields fields
    else l.accumulateFields fields

/-- Source `Logger.With`: applies `with` to the receiver in place (value view). -/
def Logger.With (l : Logger) (opts : Option FieldOpts) (fields : List Field) :
    Logger :=
  l.withOpts opts fields

/-- The spec's merge rule for one identity attribute, written from the
spec's words: "per identity attribute, exactly one of {inherit unchanged,
overwrite with supplied value, explicit reset to empty} applies, with reset
taking precedence". -/
def mergeAttrSpec (inherited supplied : String) (reset : Bool) : String :=
  if reset then "" else if supplied ≠ "" then supplied else inherited

/-! ## Configuration and construction (config.go, logger.go `NewLogger`)

`Config` is the caller-facing configuration; `*bool` fields are `Option
Bool`.  The revision of `config.go` matching `NewLogger`'s current
`logger.go` additionally carries `Env`, `BufferSize` and `FlushInterval`;
of these only `Env` reaches the built `Logger` value, so only `Env` is kept
(the merge logic shown in the source never populates it). -/

structure Config where
  LoggerName : String := ""
  ServiceName : String := ""
  LogLevel : Level := 0
  EnableDevLogging : Option Bool := none
  KinesisStreamMonitoring : String := ""
  KinesisStreamReporting : String := ""
  DisableKinesis : Option Bool := none
  Env : String := ""
  deriving Repr, DecidableEq

/-- The environment variables `mergeAndPopulateConfig` consults
(`os.Getenv` yields `""` for an unset variable). -/
structure GoEnv where
  logName : String := ""
  serviceName : String := ""
  logLevel : String := ""
  logEnableDev : String := ""
  logStreamMonitoring : String := ""
  logStreamReporting : String := ""
  logDisableKinesis : String := ""
  deriving Repr, DecidableEq

/-- Go's `strconv.ParseBool`: accepts exactly these twelve strings. -/
def parseBool (s : String) : Option Bool :=
  if s = "1" ∨ s = "t" ∨ s = "T" ∨ s = "TRUE" ∨ s = "true" ∨ s = "True" then some true
  else if s = "0" ∨ s = "f" ∨ s = "F" ∨ s = "FALSE" ∨ s = "false" ∨ s = "False" then
    some false
  else none

/-- Source `newDefaultConfig` (config.go): empty names, info level, dev logging
off, kinesis disabled. -/
def newDefaultConfig : Config :=
  { LoggerName := "", ServiceName := "", LogLevel := InfoLevel,
    EnableDevLogging := some false, KinesisStreamMonitoring := "",
    KinesisStreamReporting := "", DisableKinesis := some true }

/-- Source `mergeAndPopulateConfig` (config.go): defaults, overridden by
environment values, overridden by non-zero caller values; a bad level text
or a malformed boolean environment value is returned as an error. -/
def mergeAndPopulateConfig (copt : Option Config) (env : GoEnv) :
    Except String Config := do
  let final := newDefaultConfig
  let c := copt.getD {}
  let final := if c.LoggerName ≠ "" then { final with LoggerName := c.LoggerName }
               else if env.logName ≠ "" then { final with LoggerName := env.logName }
               else final
  let final := if c.ServiceName ≠ "" then { final with ServiceName := c.ServiceName }
               else if env.serviceName ≠ "" then { final with ServiceName := env.serviceName }
               else final
  let final ← if c.LogLevel ≠ 0 then pure { final with LogLevel := c.LogLevel }
              else if env.logLevel ≠ "" then
                match levelSet env.logLevel with
                | Except.ok lv => pure { final with LogLevel := lv }
                | Except.error e => throw e
              else pure final
  let final ← if c.EnableDevLogging.isSome then
                pure { final with EnableDevLogging := c.EnableDevLogging }
              else if env.logEnableDev ≠ "" then
                match parseBool env.logEnableDev with
                | some b => pure { final with EnableDevLogging := some b }
                | none => throw "strconv.ParseBool: parsing: invalid syntax"
              else pure final
  let final := if c.KinesisStreamMonitoring ≠ "" then
                 { final with KinesisStreamMonitoring := c.KinesisStreamMonitoring }
               else if env.logStreamMonitoring ≠ "" then
                 { final with KinesisStreamMonitoring := env.logStreamMonitoring }
               else final
  let final := if c.KinesisStreamReporting ≠ "" then
                 { final with KinesisStreamReporting := c.KinesisStreamReporting }
               else if env.logStreamReporting ≠ "" then
                 { final with KinesisStreamReporting := env.logStreamReporting }
               else final
  let final ← if c.DisableKinesis.isSome then
                pure { final with DisableKinesis := c.DisableKinesis }
              else if env.logDisableKinesis ≠ "" then
                match parseBool env.logDisableKinesis with
                | some b => pure { final with DisableKinesis := some b }
                | none => throw "strconv.ParseBool: parsing: invalid syntax"
              else pure final
  return final

/-- Outcomes of `NewLogger`'s three fallible external collaborators:
`zapConfig.Build`, `buildMonitoringCore` and `buildReportingCore` (the
latter two attach a kinesis destination and fail when it cannot be
attached).  `none` is success. -/
structure NewLoggerExt where
  zapBuildErr : Option String := none
  monitorCoreErr : Option String := none
  reportCoreErr : Option String := none
  deriving Repr, DecidableEq

/-- Source `NewLogger` (logger.go): merges the configuration, builds the base zap
logger gated at the configured level, and — unless kinesis is disabled —
wraps the monitor pipeline in the kinesis-buffered monitoring core and,
when a reporting stream name was supplied, the reporting pipeline in the
reporting core (gated at info).  Mirrors the Go two-value return: each
failure site returns `(none, some err)`, the single success site returns
`(some logger, none)`. -/
def NewLogger (config : Option Config) (env : GoEnv) (ext : NewLoggerExt) :
    Option Logger × Option String :=
  match mergeAndPopulateConfig config env with
  | Except.error err => (none, some err)
  | Except.ok c =>
    let dev := c.EnableDevLogging.getD false
    match ext.zapBuildErr with
    | some e => (none, some e)
    | none =>
      let zapL : ZapLogger := { minLevel := c.LogLevel, development := dev }
      let l : Logger :=
        { serviceName := c.ServiceName, correlationID := "", traceabilityID := "",
          clientID := "", userID := "", endpoint := "", env := c.Env,
          fields := [], loggerName := c.LoggerName,
          monitorLogger := zapL, reportingLogger := zapL }
      if (c.DisableKinesis.getD true) = false then
        match ext.monitorCoreErr with
        | some e => (none, some e)
        | none =>
          -- monitoring core keeps the configured gating level
          let l := { l with monitorLogger := { minLevel := c.LogLevel, development := dev } }
          if c.KinesisStreamReporting.length > 0 then
            match ext.reportCoreErr with
            | some e => (none, some e)
            | none =>
              -- reporting core is gated at info (`buildReportingCore`)
              (some { l with reportingLogger := { minLevel := InfoLevel, development := dev } },
               none)
          else (some l, none)
      else (some l, none)

/-! ## Shutdown (logger.go `Sync`, `Close`; go.uber.org/multierr)

`multierr.Append` concatenates error lists, a `nil` error being the empty
list.  A pipeline's `Sync` drains whatever the pipeline has buffered and
returns that pipeline's sync error; a closer's `Close` releases the handle
and returns its close error. -/

def multierrAppend (lhs rhs : List String) : List String := lhs ++ rhs

/-- One emission pipeline as seen at shutdown: content still buffered, and
the error its destination would report for a flush. -/
structure Pipeline where
  pending : List String
  syncErr : List String
  deriving Repr, DecidableEq

/-- zap `Logger.Sync`: drains the pipeline, reporting the sink's error. -/
def pipelineSync (p : Pipeline) : Pipeline × List String :=
  ({ p with pending := [] }, p.syncErr)

/-- One owned resource handle on `Logger.closers`. -/
structure Closer where
  closed : Bool
  closeErr : List String
  deriving Repr, DecidableEq

/-- Source `io.Closer.Close`: releases the handle, reporting its error. -/
def closerClose (c : Closer) : Closer × List String :=
  ({ c with closed := true }, c.closeErr)

/-- The shutdown-relevant state of a `Logger`: its two pipelines and its
owned closers. -/
structure LoggerShut where
  monitor : Pipeline
  reporting : Pipeline
  closers : List Closer
  deriving Repr, DecidableEq

/-- Source `Logger.Sync` (logger.go): `err = multierr.Append(err,
reportingLogger.Sync()); return multierr.Append(err, monitorLogger.Sync())`
— both pipelines are drained, both errors collected. -/
def LoggerShut.SyncM (s : LoggerShut) : LoggerShut × List String :=
  let (rp, re) := pipelineSync s.reporting
  let (mp, me) := pipelineSync s.monitor
  ({ s with reporting := rp, monitor := mp },
   multierrAppend (multierrAppend [] re) me)

/-- The `for _, c := range l.closers { err = multierr.Append(err, c.Close()) }`
loop of `Logger.Close`. -/
def closeAll : List Closer → List Closer × List String
  | [] => ([], [])
  | c :: rest =>
    let (c', e) := closerClose c
    let (rest', es) := closeAll rest
    (c' :: rest', multierrAppend e es)

/-- Source `Logger.Close` (logger.go): closes every owned handle, aggregating
every error. -/
def LoggerShut.CloseM (s : LoggerShut) : LoggerShut × List String :=
  let (cs, es) := closeAll s.closers
  ({ s with closers := cs }, es)

/-! ## BufferedSink (internal/writer: the `writer.Buffer` wrapper)

Modelled from the spec: the buffered write-behind sink implementation
(`writer.Buffer`, package `internal/writer`) is absent from the tree — only
its caller `buildReportingCore`/`buildMonitoringCore` (config.go) is
present.  The spec's contract: "Write(bytes): if buffered content is
non-empty and the incoming write would exceed capacity, flush the existing
buffered content first, then buffer the new write"; "Close signals task
cancellation, then performs one final Sync"; Sync flushes the buffered
content to the destination.  `dest` is the concatenation of all bytes the
destination has observed, in order. -/

structure BufferedSink where
  cap : Nat
  buf : List Nat
  dest : List Nat
  deriving Repr, DecidableEq

/-- Modelled from the spec: `Write` — flush the prior buffered content
first when the incoming bytes would exceed capacity, then buffer the
incoming write whole. -/
def BufferedSink.write (s : BufferedSink) (bs : List Nat) : BufferedSink :=
  if s.buf ≠ [] ∧ s.cap < s.buf.length + bs.length then
    { s with dest := s.dest ++ s.buf, buf := bs }
  else
    { s with buf := s.buf ++ bs }

/-- Modelled from the spec: `Sync` — flush the buffered content to the
destination. -/
def BufferedSink.sync (s : BufferedSink) : BufferedSink :=
  { s with dest := s.dest ++ s.buf, buf := [] }

/-- Modelled from the spec: `Close` — cancel the background task, then one
final `Sync`. -/
def BufferedSink.close (s : BufferedSink) : BufferedSink :=
  s.sync

/-- A sequence of `Write` calls in order. -/
def BufferedSink.writeAll (s : BufferedSink) (ws : List (List Nat)) : BufferedSink :=
  ws.foldl BufferedSink.write s

/-- A fresh sink with the given capacity threshold wrapping an empty
destination. -/
def BufferedSink.new (cap : Nat) : BufferedSink :=
  { cap := cap, buf := [], dest := [] }

/-! ## Kinesis destination writer (internal/writer/kinesis.go) -/

/-- Source `kinesisWriter.Write` (internal/writer/kinesis.go): puts the whole
slice as one record; on success reports `(len(p), nil)`, on failure
`(0, err)`.  The `PutRecord` outcome is the call's oracle input. -/
def kinesisWrite (p : List Nat) (putRecordErr : Option String) : Nat × Option String :=
  match putRecordErr with
  | some e => (0, some e)
  | none => (p.length, none)

/-! ## Go slice semantics for the copy-on-write claim

`NewChild` performs `new := *l` — a shallow struct copy whose slice header
still points at the parent's backing array — followed by
`append(l.fields, fields...)`.  Whether the child's accumulated-field
sequence aliases the parent's backing storage therefore depends on Go's
append semantics: an append that fits within the capacity writes into the
shared array in place; one that exceeds it allocates afresh.  We model
memory as a list of backing arrays (each of length = its capacity, padded
with the zero `Field`) and a slice as (array id, length, capacity).

The growth rule is Go's `growslice` for the small lengths arising here:
the doubled capacity, or the needed capacity when doubling is not enough;
for 64-byte elements (the size of `Field`) and the capacities below, the
allocator's size-class round-up is exact, so this rule is the exact
capacity Go produces. -/

/-- The zero value of `Field`, filling unwritten backing-array capacity. -/
def padField : Field := ⟨zeroZapField⟩

/-- A Go slice header: backing array id, length, capacity. -/
structure GoSlice where
  aid : Nat
  len : Nat
  cap : Nat
  deriving Repr, DecidableEq

/-- Memory: the backing arrays, indexed by array id. -/
abbrev Mem := List (List Field)

/-- The contents of backing array `aid`. -/
def readArr (m : Mem) (aid : Nat) : List Field := m.getD aid []

/-- The elements a slice header denotes: the first `len` cells of its
backing array. -/
def readSlice (m : Mem) (s : GoSlice) : List Field :=
  (readArr m s.aid).take s.len

/-- Overwrite the cells of `arr` starting at index `i` with `fs`. -/
def writeAt (arr : List Field) (i : Nat) (fs : List Field) : List Field :=
  arr.take i ++ fs ++ arr.drop (i + fs.length)

/-- Source `growslice`'s new capacity: double, or the needed capacity if doubling
is insufficient. -/
def growCap (need oldcap : Nat) : Nat :=
  if 2 * oldcap < need then need else 2 * oldcap

/-- Allocate a fresh backing array holding exactly `fs` (a slice literal or
materialized variadic argument: length = capacity). -/
def allocSlice (m : Mem) (fs : List Field) : Mem × GoSlice :=
  (m ++ [fs], ⟨m.length, fs.length, fs.length⟩)

/-- Go `append(s, fs...)`: in place into the shared backing array when the
result fits the capacity, else into a freshly grown array. -/
def sliceAppend (m : Mem) (s : GoSlice) (fs : List Field) : Mem × GoSlice :=
  let need := s.len + fs.length
  if need ≤ s.cap then
    (m.set s.aid (writeAt (readArr m s.aid) s.len fs), ⟨s.aid, need, s.cap⟩)
  else
    let newcap := growCap need s.cap
    let contents := readSlice m s ++ fs ++ List.replicate (newcap - need) padField
    (m ++ [contents], ⟨m.length, need, newcap⟩)

/-- The heap view of a `Logger`: the accumulated-field sequence is a slice
header into shared memory; everything else is as in the value view. -/
structure LoggerH where
  serviceName : String
  correlationID : String
  traceabilityID : String
  clientID : String
  userID : String
  endpoint : String
  env : String
  fields : GoSlice
  loggerName : String
  monitorLogger : ZapLogger
  reportingLogger : ZapLogger
  deriving Repr, DecidableEq

/-- Source `Logger.with` on the heap view.  `fsS` is the already-materialized
variadic slice.  `nil` options append; otherwise the identity attributes
merge as in the value view and the accumulated fields are replaced by the
variadic slice header (`writeFields`: `l.fields = f`) or extended by
`append` according to the flag. -/
def LoggerH.withOptsH (m : Mem) (l : LoggerH) (opts : Option FieldOpts)
    (fsS : GoSlice) : Mem × LoggerH :=
  match opts with
  | none =>
    let (m', s') := sliceAppend m l.fields (readSlice m fsS)
    (m', { l with fields := s' })
  | some o =>
    let l := if o.ResetEndpoint then { l with endpoint := "" }
             else if o.Endpoint ≠ "" then { l with endpoint := o.Endpoint } else l
    let l := if o.ResetCorrelationID then { l with correlationID := "" }
             else if o.CorrelationID ≠ "" then { l with correlationID := o.CorrelationID } else l
    let l := if o.ResetTraceabilityID then { l with traceabilityID := "" }
             else if o.TraceabilityID ≠ "" then { l with traceabilityID := o.TraceabilityID } else l
    let l := if o.ResetClientID then { l with clientID := "" }
             else if o.ClientID ≠ "" then { l with clientID := o.ClientID } else l
    let l := if o.ResetUserID then { l with userID := "" }
             else if o.UserID ≠ "" then { l with userID := o.UserID } else l
    if o.OverwriteAccumulatedFields then
      (m, { l with fields := fsS })
    else
      let (m', s') := sliceAppend m l.fields (readSlice m fsS)
      (m', { l with fields := s' })

/-- Source `Logger.With` on the heap view: the call site materializes the variadic
fields, then `with` updates the receiver in place. -/
def LoggerH.WithH (m : Mem) (l : LoggerH) (opts : Option FieldOpts)
    (fsLit : List Field) : Mem × LoggerH :=
  let (m', fsS) := allocSlice m fsLit
  l.withOptsH m' opts fsS

/-- Source `Logger.NewChild` on the heap view: `new := *l` copies the struct — the
slice header, not the backing array — then `new.with(opts, fields...)`. -/
def LoggerH.NewChildH (m : Mem) (l : LoggerH) (opts : Option FieldOpts)
    (fsLit : List Field) : Mem × LoggerH :=
  let (m', fsS) := allocSlice m fsLit
  l.withOptsH m' opts fsS

/-- The value view of a heap logger under a given memory: resolves the
accumulated-field slice to its elements. -/
def LoggerH.denote (m : Mem) (l : LoggerH) : Logger :=
  { serviceName := l.serviceName, correlationID := l.correlationID,
    traceabilityID := l.traceabilityID, clientID := l.clientID,
    userID := l.userID, endpoint := l.endpoint, env := l.env,
    fields := readSlice m l.fields, loggerName := l.loggerName,
    monitorLogger := l.monitorLogger, reportingLogger := l.reportingLogger }

/-! ## Concrete derivation chain for the isolation claim

A root logger as `NewLogger` builds it (`fields: []Field{}` — an empty
backing array), then: `With` one field, derive a child, derive a
grandchild, then derive two siblings from the grandchild.  The grandchild's
append left spare capacity (length 3, capacity 4), so both siblings'
appends land in the grandchild's backing array — in the same cell. -/

def rootMemC1 : Mem := [[]]

def rootLoggerC1 : LoggerH :=
  { serviceName := "svc", correlationID := "", traceabilityID := "",
    clientID := "", userID := "", endpoint := "", env := "",
    fields := ⟨0, 0, 0⟩, loggerName := "root",
    monitorLogger := { minLevel := DebugLevel, development := false },
    reportingLogger := { minLevel := InfoLevel, development := false } }

/-- Source `P := root; P.With(nil, {foo:42})` — accumulated fields `[foo]`,
capacity 1. -/
def stepP : Mem × LoggerH :=
  rootLoggerC1.WithH rootMemC1 none [Int64Field "foo" 42]

/-- Source `G1 := P.NewChild(nil, {lvl:1})` — length 2, capacity 2, fresh array. -/
def stepG1 : Mem × LoggerH :=
  (stepP.2).NewChildH stepP.1 none [Int64Field "lvl" 1]

/-- Source `G2 := G1.NewChild(nil, {lvl:2})` — length 3, capacity 4, fresh array:
the doubling leaves one spare cell. -/
def stepG2 : Mem × LoggerH :=
  (stepG1.2).NewChildH stepG1.1 none [Int64Field "lvl" 2]

/-- Source `A := G2.NewChild(nil, {who:1})` — fits in G2's spare capacity: A's
header shares G2's backing array, `who:1` written into cell 3. -/
def stepA : Mem × LoggerH :=
  (stepG2.2).NewChildH stepG2.1 none [Int64Field "who" 1]

/-- Source `B := G2.NewChild(nil, {who:2})` — G2's header is still length 3, so
B's append also writes cell 3 of the same backing array, overwriting the
cell A's header exposes. -/
def stepB : Mem × LoggerH :=
  (stepG2.2).NewChildH stepA.1 none [Int64Field "who" 2]

/-- An environment whose `LOG_LEVEL` holds unparsable level text. -/
def badLevelEnv : GoEnv := { logLevel := "nonsense" }

/-! ## Lemmas: the fill loops of `getZapFields` produce plain concatenation -/

theorem fillFrom_spec (fs : List Field) (pre junk : List ZapField)
    (h : fs.length ≤ junk.length) :
    fillFrom (pre ++ junk) pre.length fs = pre ++ fs.map Field.field ++ junk.drop fs.length := by
  induction fs generalizing pre junk with
  | nil => simp [fillFrom]
  | cons f rest ih =>
    match junk with
    | [] => simp at h
    | j :: junk' =>
      have hset : (pre ++ j :: junk').set pre.length f.field =
          (pre ++ [f.field]) ++ junk' := by
        simp [List.set_append]
      rw [fillFrom, hset]
      have hlen : pre.length + 1 = (pre ++ [f.field]).length := by simp
      rw [hlen, ih (pre ++ [f.field]) junk' (by simpa using h)]
      simp

theorem fillFrom_core (i0 i1 i2 i3 i4 i5 : ZapField) (accum callsite : List Field) :
    fillFrom
      (fillFrom ([i0, i1, i2, i3, i4, i5] ++
          List.replicate (accum.length + callsite.length) zeroZapField) 6 accum)
      (6 + accum.length) callsite =
      [i0, i1, i2, i3, i4, i5] ++ accum.map Field.field ++ callsite.map Field.field := by
  have h0 : (6 : Nat) = ([i0, i1, i2, i3, i4, i5] : List ZapField).length := rfl
  rw [h0, fillFrom_spec accum _ _ (by simp)]
  have h1 : ([i0, i1, i2, i3, i4, i5] : List ZapField).length + accum.length =
      ([i0, i1, i2, i3, i4, i5] ++ accum.map Field.field).length := by
    simp only [List.length_append, List.length_map, List.length_cons, List.length_nil]
  rw [h1, fillFrom_spec callsite _ _ (by simp)]
  simp

theorem lowerChar_idem (c : Char) : lowerChar (lowerChar c) = lowerChar c := by
  by_cases h : 65 ≤ c.toNat ∧ c.toNat ≤ 90
  · have hval : (Char.ofNat (c.toNat + 32)).toNat = c.toNat + 32 := by
      unfold Char.ofNat
      split
      · rfl
      · rename_i h3
        exact absurd (Or.inl (by omega)) h3
    have h1 : lowerChar c = Char.ofNat (c.toNat + 32) := by rw [lowerChar, if_pos h]
    rw [h1, lowerChar, if_neg (by rw [hval]; omega)]
  · have h1 : lowerChar c = c := by rw [lowerChar, if_neg h]
    rw [h1, h1]

theorem asciiLower_idem (s : String) : asciiLower (asciiLower s) = asciiLower s := by
  unfold asciiLower
  simp [List.map_map, Function.comp_def, lowerChar_idem]

/-- The names accepted by the level parser, lower-cased. -/
theorem unmarshalTextExact_lower_mem (t : String) (l : Level)
    (h : unmarshalTextExact t = some l) :
    asciiLower t ∈ ["debug", "info", "warn", "error", "dpanic", "panic", "fatal", ""] := by
  unfold unmarshalTextExact at h
  split_ifs at h with h1 h2 h3 h4 h5 h6 h7 <;>
    first
    | (rcases h1 with rfl | rfl <;> decide)
    | (rcases h2 with rfl | rfl | rfl <;> decide)
    | (rcases h3 with rfl | rfl <;> decide)
    | (rcases h4 with rfl | rfl <;> decide)
    | (rcases h5 with rfl | rfl <;> decide)
    | (rcases h6 with rfl | rfl <;> decide)
    | (rcases h7 with rfl | rfl <;> decide)
    | exact absurd h (by simp)

/-- A direct match of the parser is stable under lower-casing. -/
theorem unmarshalTextExact_lower_eq (t : String) (l : Level)
    (h : unmarshalTextExact t = some l) :
    unmarshalTextExact (asciiLower t) = some l := by
  unfold unmarshalTextExact at h
  split_ifs at h with h1 h2 h3 h4 h5 h6 h7 <;>
    first
    | (rcases h1 with rfl | rfl <;> (injection h with h; rw [← h]; decide))
    | (rcases h2 with rfl | rfl | rfl <;> (injection h with h; rw [← h]; decide))
    | (rcases h3 with rfl | rfl <;> (injection h with h; rw [← h]; decide))
    | (rcases h4 with rfl | rfl <;> (injection h with h; rw [← h]; decide))
    | (rcases h5 with rfl | rfl <;> (injection h with h; rw [← h]; decide))
    | (rcases h6 with rfl | rfl <;> (injection h with h; rw [← h]; decide))
    | (rcases h7 with rfl | rfl <;> (injection h with h; rw [← h]; decide))
    | exact absurd h (by simp)

/-- When the lower-cased text matches a canonical name, the parser yields
that name's level regardless of the original casing. -/
theorem levelUnmarshalText_of_lower (s name : String) (l : Level)
    (hname : unmarshalTextExact name = some l)
    (h : asciiLower s = name) :
    levelUnmarshalText s = Except.ok l := by
  unfold levelUnmarshalText
  cases hx : unmarshalTextExact s with
  | none => rw [h, hname]
  | some lv =>
    have h2 := unmarshalTextExact_lower_eq s lv hx
    rw [h, hname] at h2
    injection h2 with h3
    rw [h3]

theorem getZapFields_eq (l : Logger) (fields : List Field) :
    l.getZapFields fields =
      l.identityFields ++ l.fields.map Field.field ++ fields.map Field.field := by
  show fillFrom (fillFrom _ 6 l.fields) (6 + l.fields.length) fields = _
  have hrep : List.replicate (6 + fields.length + l.fields.length) zeroZapField =
      List.replicate 6 zeroZapField ++
        List.replicate (l.fields.length + fields.length) zeroZapField := by
    rw [← List.replicate_add]
    congr 1
    omega
  rw [hrep]
  simp only [List.replicate, List.set_append, List.length_append, List.length_replicate]
  norm_num [List.set]
  have h6 : ∀ a b c d e f : ZapField, ∀ t : List ZapField,
      a :: b :: c :: d :: e :: f :: t = [a, b, c, d, e, f] ++ t := by
    intro a b c d e f t; rfl
  rw [h6, fillFrom_core]
  simp [Logger.identityFields, StringField]

/-- Any record the zap core emits carries exactly the field list it was
given. -/
theorem zapWrite_mem_fields (z : ZapLogger) (lvl : Int) (msg : String)
    (fs : List ZapField) : ∀ r ∈ zapWrite z lvl msg fs, r.fields = fs := by
  intro r hr
  unfold zapWrite at hr
  split at hr
  · simp only [Option.mem_def, Option.some.injEq] at hr
    rw [← hr]
  · simp at hr

/-- Claim C2: For every logger state and every list of call-site fields, each
leveled emission method (Debug, Info, Warn, Error, DPanic, Panic, Fatal,
Report) assembles the emitted record's field list in fixed order: the
identity attributes first, then the logger's accumulated fields oldest
first, then the call-site fields in call order. -/
theorem emission_field_order (l : Logger) (message : String) (callsite : List Field) :
    (∀ r ∈ l.Debug message callsite,
        r.fields = l.identityFields ++ l.fields.map Field.field ++ callsite.map Field.field) ∧
    (∀ r ∈ l.Info message callsite,
        r.fields = l.identityFields ++ l.fields.map Field.field ++ callsite.map Field.field) ∧
    (∀ r ∈ l.Warn message callsite,
        r.fields = l.identityFields ++ l.fields.map Field.field ++ callsite.map Field.field) ∧
    (∀ r ∈ l.Error message callsite,
        r.fields = l.identityFields ++ l.fields.map Field.field ++ callsite.map Field.field) ∧
    (∀ r ∈ (l.DPanic message callsite).1,
        r.fields = l.identityFields ++ l.fields.map Field.field ++ callsite.map Field.field) ∧
    (∀ r ∈ (l.Panic message callsite).1,
        r.fields = l.identityFields ++ l.fields.map Field.field ++ callsite.map Field.field) ∧
    (∀ r ∈ (l.Fatal message callsite).1,
        r.fields = l.identityFields ++ l.fields.map Field.field ++ callsite.map Field.field) ∧
    (∀ r ∈ l.Report message callsite,
        r.fields = l.identityFields ++ l.fields.map Field.field ++ callsite.map Field.field) := by
  refine ⟨?_, ?_, ?_, ?_, ?_, ?_, ?_, ?_⟩ <;>
    (intro r hr
     rw [← getZapFields_eq]
     exact zapWrite_mem_fields _ _ _ _ r hr)

/-- Witness for C2: A concrete logger at debug gating emits through `Info`
a record whose field list is the identity attributes, then the accumulated
field, then the call-site field. -/
theorem emission_field_order_witness :
    Record.fields
        ⟨InfoLevel, "m",
          (Logger.mk "svc" "c" "t" "cl" "u" "e" "env" [Int64Field "foo" 42] "n"
              ⟨DebugLevel, false⟩ ⟨InfoLevel, false⟩).getZapFields
            [StringField "one" "two"]⟩ =
      (Logger.mk "svc" "c" "t" "cl" "u" "e" "env" [Int64Field "foo" 42] "n"
          ⟨DebugLevel, false⟩ ⟨InfoLevel, false⟩).identityFields ++
        [ZapField.int64 "foo" 42] ++ [ZapField.str "one" "two"] :=
  (emission_field_order
      (Logger.mk "svc" "c" "t" "cl" "u" "e" "env" [Int64Field "foo" 42] "n"
        ⟨DebugLevel, false⟩ ⟨InfoLevel, false⟩) "m" [StringField "one" "two"]).2.1
    _ (by decide)

/-- Claim C3: For every logger state, message, and call-site fields, `Fatal`
invokes the ExitHook terminate operation (`exit.Exit`) exactly once,
unconditionally — even when the pipeline's configured minimum level is
above Fatal, in which case the record itself is suppressed. -/
theorem fatal_always_exits (l : Logger) (message : String) (callsite : List Field) :
    (l.Fatal message callsite).2 = 1 ∧
    ((l.Fatal message callsite).1 = none ↔ FatalLevel < l.monitorLogger.minLevel) := by
  refine ⟨rfl, ?_⟩
  simp only [Logger.Fatal, zapWrite, FatalLevel]
  split <;> rename_i h <;> simp <;> omega

/-- Claim C4: For every logger state, message, and call-site fields, `Panic`
raises a recoverable fault unconditionally, independent of whether the
record itself was written; a minimum level above Panic suppresses the
record but never the fault. -/
theorem panic_always_faults (l : Logger) (message : String) (callsite : List Field) :
    (l.Panic message callsite).2 = true ∧
    ((l.Panic message callsite).1 = none ↔ PanicLevel < l.monitorLogger.minLevel) := by
  refine ⟨rfl, ?_⟩
  simp only [Logger.Panic, zapWrite, PanicLevel]
  split <;> rename_i h <;> simp <;> omega

/-- Source `with` in one equation: each identity attribute is the spec's merge of
its inherited value, the supplied value and the reset flag, and the
accumulated fields are replaced or extended according to the overwrite
flag. -/
theorem mergeEndpoint_eq (l : Logger) (o : FieldOpts) :
    l.mergeEndpoint o = { l with endpoint := mergeAttrSpec l.endpoint o.Endpoint o.ResetEndpoint } := by
  unfold Logger.mergeEndpoint mergeAttrSpec
  split_ifs <;> rfl

theorem mergeCorrelationID_eq (l : Logger) (o : FieldOpts) :
    l.mergeCorrelationID o =
      { l with correlationID := mergeAttrSpec l.correlationID o.CorrelationID o.ResetCorrelationID } := by
  unfold Logger.mergeCorrelationID mergeAttrSpec
  split_ifs <;> rfl

theorem mergeTraceabilityID_eq (l : Logger) (o : FieldOpts) :
    l.mergeTraceabilityID o =
      { l with traceabilityID := mergeAttrSpec l.traceabilityID o.TraceabilityID o.ResetTraceabilityID } := by
  unfold Logger.mergeTraceabilityID mergeAttrSpec
  split_ifs <;> rfl

theorem mergeClientID_eq (l : Logger) (o : FieldOpts) :
    l.mergeClientID o = { l with clientID := mergeAttrSpec l.clientID o.ClientID o.ResetClientID } := by
  unfold Logger.mergeClientID mergeAttrSpec
  split_ifs <;> rfl

theorem mergeUserID_eq (l : Logger) (o : FieldOpts) :
    l.mergeUserID o = { l with userID := mergeAttrSpec l.userID o.UserID o.ResetUserID } := by
  unfold Logger.mergeUserID mergeAttrSpec
  split_ifs <;> rfl

theorem withOpts_some_eq (l : Logger) (o : FieldOpts) (fields : List Field) :
    l.withOpts (some o) fields =
      { l with
        endpoint := mergeAttrSpec l.endpoint o.Endpoint o.ResetEndpoint,
        correlationID := mergeAttrSpec l.correlationID o.CorrelationID o.ResetCorrelationID,
        traceabilityID := mergeAttrSpec l.traceabilityID o.TraceabilityID o.ResetTraceabilityID,
        clientID := mergeAttrSpec l.clientID o.ClientID o.ResetClientID,
        userID := mergeAttrSpec l.userID o.UserID o.ResetUserID,
        fields := if o.OverwriteAccumulatedFields then fields else l.fields ++ fields } := by
  show (if o.OverwriteAccumulatedFields then
          Logger.writeFields ((((((l.mergeEndpoint o).mergeCorrelationID o).mergeTraceabilityID
            o).mergeClientID o).mergeUserID o)) fields
        else
          Logger.accumulateFields ((((((l.mergeEndpoint o).mergeCorrelationID
            o).mergeTraceabilityID o).mergeClientID o).mergeUserID o)) fields) = _
  rw [mergeEndpoint_eq, mergeCorrelationID_eq, mergeTraceabilityID_eq, mergeClientID_eq,
    mergeUserID_eq]
  unfold Logger.writeFields Logger.accumulateFields
  split_ifs <;> rfl

/-- Claim C9: The `with` merge rule: for every identity attribute, the result
is exactly the spec's merge (`reset` ⟶ empty, else non-zero supplied value
⟶ overwrite, else inherit — reset taking precedence over a supplied
value), and `OverwriteAccumulatedFields` selects replacement versus
appending of the accumulated sequence; `nil` options inherit everything and
append. -/
theorem with_implements_merge_rule (l : Logger) (o : FieldOpts) (fields : List Field) :
    ((l.withOpts (some o) fields).endpoint =
        mergeAttrSpec l.endpoint o.Endpoint o.ResetEndpoint) ∧
    ((l.withOpts (some o) fields).correlationID =
        mergeAttrSpec l.correlationID o.CorrelationID o.ResetCorrelationID) ∧
    ((l.withOpts (some o) fields).traceabilityID =
        mergeAttrSpec l.traceabilityID o.TraceabilityID o.ResetTraceabilityID) ∧
    ((l.withOpts (some o) fields).clientID =
        mergeAttrSpec l.clientID o.ClientID o.ResetClientID) ∧
    ((l.withOpts (some o) fields).userID =
        mergeAttrSpec l.userID o.UserID o.ResetUserID) ∧
    ((l.withOpts (some o) fields).fields =
        if o.OverwriteAccumulatedFields then fields else l.fields ++ fields) ∧
    ((l.withOpts none fields).fields = l.fields ++ fields) ∧
    ((l.withOpts none fields).endpoint = l.endpoint) ∧
    ((l.withOpts none fields).correlationID = l.correlationID) ∧
    ((l.withOpts none fields).traceabilityID = l.traceabilityID) ∧
    ((l.withOpts none fields).clientID = l.clientID) ∧
    ((l.withOpts none fields).userID = l.userID) := by
  rw [withOpts_some_eq]
  exact ⟨rfl, rfl, rfl, rfl, rfl, rfl, rfl, rfl, rfl, rfl, rfl, rfl⟩

/-- Claim C10: The kinesis destination writer's `Write(p)` returns
`(len(p), nil)` when the underlying put-record call succeeds and `(0, err)`
when it fails; it never reports a partial byte count. -/
theorem kinesisWrite_all_or_nothing (p : List Nat) (putRecordErr : Option String) :
    (kinesisWrite p putRecordErr = (p.length, none) ∧ putRecordErr = none) ∨
    ((kinesisWrite p putRecordErr).1 = 0 ∧
      (kinesisWrite p putRecordErr).2 = putRecordErr ∧ putRecordErr.isSome) := by
  cases putRecordErr <;> simp [kinesisWrite]

/-- One `Write` never loses or duplicates bytes: destination content plus
buffered content grows by exactly the written bytes. -/
theorem write_inv (s : BufferedSink) (bs : List Nat) :
    (s.write bs).dest ++ (s.write bs).buf = s.dest ++ s.buf ++ bs := by
  unfold BufferedSink.write
  split_ifs <;> simp

/-- The invariant over any sequence of writes. -/
theorem writeAll_inv (ws : List (List Nat)) (s : BufferedSink) :
    (s.writeAll ws).dest ++ (s.writeAll ws).buf = s.dest ++ s.buf ++ ws.flatten := by
  induction ws generalizing s with
  | nil => simp [BufferedSink.writeAll]
  | cons w ws ih =>
    show ((s.write w).writeAll ws).dest ++ ((s.write w).writeAll ws).buf = _
    rw [ih (s.write w), write_inv]
    simp

/-- Claim C5: For the buffered sink: a `Write` arriving when buffered content
is non-empty and the incoming bytes would exceed the capacity threshold
flushes the previously buffered content exactly once and then buffers the
incoming bytes whole (no split across flush batches); and the
concatenation of all bytes the destination observes through an explicit
`Close` equals exactly the concatenation of all bytes passed to `Write`,
in order. -/
theorem bufferedSink_boundary_and_drain :
    (∀ (s : BufferedSink) (bs : List Nat), s.buf ≠ [] → s.cap < s.buf.length + bs.length →
      (s.write bs).dest = s.dest ++ s.buf ∧ (s.write bs).buf = bs) ∧
    (∀ (cap : Nat) (ws : List (List Nat)),
      (((BufferedSink.new cap).writeAll ws).close).dest = ws.flatten) := by
  constructor
  · intro s bs h1 h2
    unfold BufferedSink.write
    rw [if_pos ⟨h1, h2⟩]
    exact ⟨rfl, rfl⟩
  · intro cap ws
    show ((BufferedSink.new cap).writeAll ws).dest ++ ((BufferedSink.new cap).writeAll ws).buf = _
    rw [writeAll_inv]
    simp [BufferedSink.new]

/-- Witness for C5: A sink with capacity 2 holding one buffered byte,
receiving a two-byte write: the prior content is flushed whole, the new
write buffered whole; and a concrete write sequence drains exactly. -/
theorem bufferedSink_boundary_and_drain_witness :
    ((BufferedSink.mk 2 [1] []).write [2, 3]).dest = [] ++ [1] ∧
    ((BufferedSink.mk 2 [1] []).write [2, 3]).buf = [2, 3] :=
  bufferedSink_boundary_and_drain.1 (BufferedSink.mk 2 [1] []) [2, 3]
    (by decide) (by decide)

/-- Claim C6: `UnmarshalText` accepts any casing of the seven level names and
yields the matching level; empty text yields Info; any other text fails
with an "unrecognized level" error. -/
theorem level_text_parsing (s : String) :
    (asciiLower s = "debug" → levelUnmarshalText s = Except.ok DebugLevel) ∧
    (asciiLower s = "info" → levelUnmarshalText s = Except.ok InfoLevel) ∧
    (asciiLower s = "warn" → levelUnmarshalText s = Except.ok WarnLevel) ∧
    (asciiLower s = "error" → levelUnmarshalText s = Except.ok ErrorLevel) ∧
    (asciiLower s = "dpanic" → levelUnmarshalText s = Except.ok DPanicLevel) ∧
    (asciiLower s = "panic" → levelUnmarshalText s = Except.ok PanicLevel) ∧
    (asciiLower s = "fatal" → levelUnmarshalText s = Except.ok FatalLevel) ∧
    (s = "" → levelUnmarshalText s = Except.ok InfoLevel) ∧
    (asciiLower s ∉ (["debug", "info", "warn", "error", "dpanic", "panic", "fatal", ""] :
        List String) →
      levelUnmarshalText s = Except.error ("unrecognized level: " ++ s)) := by
  refine ⟨fun h => levelUnmarshalText_of_lower s "debug" _ (by decide) h,
    fun h => levelUnmarshalText_of_lower s "info" _ (by decide) h,
    fun h => levelUnmarshalText_of_lower s "warn" _ (by decide) h,
    fun h => levelUnmarshalText_of_lower s "error" _ (by decide) h,
    fun h => levelUnmarshalText_of_lower s "dpanic" _ (by decide) h,
    fun h => levelUnmarshalText_of_lower s "panic" _ (by decide) h,
    fun h => levelUnmarshalText_of_lower s "fatal" _ (by decide) h,
    ?_, ?_⟩
  · intro h
    subst h
    rfl
  · intro h
    unfold levelUnmarshalText
    cases hx : unmarshalTextExact s with
    | some lv => exact absurd (unmarshalTextExact_lower_mem s lv hx) h
    | none =>
      cases hy : unmarshalTextExact (asciiLower s) with
      | some lv =>
        have hmem := unmarshalTextExact_lower_mem (asciiLower s) lv hy
        rw [asciiLower_idem] at hmem
        exact absurd hmem h
      | none => rfl

/-- Witness for C6: Mixed-case "DeBuG" parses to Debug, the empty string to
Info, and "nonsense" fails with the unrecognized-level error. -/
theorem level_text_parsing_witness :
    levelUnmarshalText "DeBuG" = Except.ok DebugLevel ∧
    levelUnmarshalText "" = Except.ok InfoLevel ∧
    levelUnmarshalText "nonsense" = Except.error "unrecognized level: nonsense" :=
  ⟨(level_text_parsing "DeBuG").1 (by decide),
   (level_text_parsing "").2.2.2.2.2.2.2.1 rfl,
   (level_text_parsing "nonsense").2.2.2.2.2.2.2.2 (by decide)⟩

/-- Claim C7: `NewLogger` fails closed: for every configuration input and
every outcome of its fallible collaborators, it returns either a logger and
no error or no logger and an error — and whenever the merge of the resolved
configuration fails (bad level text, malformed boolean) or a configured
destination cannot be attached (the monitoring core, or the reporting core
when a reporting stream is configured), the error is returned with no
logger. -/
theorem newLogger_fails_closed (config : Option Config) (env : GoEnv) (ext : NewLoggerExt) :
    (((NewLogger config env ext).1.isSome ∧ (NewLogger config env ext).2 = none) ∨
      ((NewLogger config env ext).1 = none ∧ (NewLogger config env ext).2.isSome)) ∧
    (∀ e, mergeAndPopulateConfig config env = Except.error e →
      NewLogger config env ext = (none, some e)) ∧
    (∀ e c, mergeAndPopulateConfig config env = Except.ok c → ext.zapBuildErr = none →
      c.DisableKinesis.getD true = false → ext.monitorCoreErr = some e →
      NewLogger config env ext = (none, some e)) ∧
    (∀ e c, mergeAndPopulateConfig config env = Except.ok c → ext.zapBuildErr = none →
      c.DisableKinesis.getD true = false → ext.monitorCoreErr = none →
      c.KinesisStreamReporting.length > 0 → ext.reportCoreErr = some e →
      NewLogger config env ext = (none, some e)) := by
  refine ⟨?_, ?_, ?_, ?_⟩
  · cases hm : mergeAndPopulateConfig config env with
    | error e => simp [NewLogger, hm]
    | ok c =>
      cases hz : ext.zapBuildErr with
      | some e => simp [NewLogger, hm, hz]
      | none =>
        by_cases hk : (c.DisableKinesis.getD true) = false
        · cases hmc : ext.monitorCoreErr with
          | some e => simp [NewLogger, hm, hz, hk, hmc]
          | none =>
            by_cases hr : c.KinesisStreamReporting.length > 0
            · cases hrc : ext.reportCoreErr with
              | some e => simp [NewLogger, hm, hz, hk, hmc, hr, hrc]
              | none => simp [NewLogger, hm, hz, hk, hmc, hr, hrc]
            · simp [NewLogger, hm, hz, hk, hmc, hr]
        · simp [NewLogger, hm, hz, hk]
  · intro e hm
    simp [NewLogger, hm]
  · intro e c hm hz hk hmc
    simp [NewLogger, hm, hz, hk, hmc]
  · intro e c hm hz hk hmc hr hrc
    simp [NewLogger, hm, hz, hk, hmc, hr, hrc]

/-- Witness for C7: With unparsable `LOG_LEVEL` text in the environment and
an empty caller configuration, `NewLogger` returns no logger and the
unrecognized-level error; and with kinesis enabled, a configured reporting
stream and a reporting core that cannot be attached, it returns no logger
and the attach error. -/
theorem newLogger_fails_closed_witness :
    NewLogger none badLevelEnv {} = (none, some "unrecognized level: nonsense") ∧
    NewLogger (some { KinesisStreamReporting := "rep", DisableKinesis := some false }) {}
        { reportCoreErr := some "reporting stream unreachable" } =
      (none, some "reporting stream unreachable") :=
  ⟨(newLogger_fails_closed none badLevelEnv {}).2.1 "unrecognized level: nonsense" rfl,
   (newLogger_fails_closed
        (some { KinesisStreamReporting := "rep", DisableKinesis := some false }) {}
        { reportCoreErr := some "reporting stream unreachable" }).2.2.2
      "reporting stream unreachable" _ rfl rfl rfl rfl (by decide) rfl⟩

/-- Source `closeAll` closes every handle and aggregates every error in order. -/
theorem closeAll_spec (cs : List Closer) :
    (closeAll cs).1 = cs.map (fun c => { c with closed := true }) ∧
    (closeAll cs).2 = (cs.map Closer.closeErr).flatten := by
  induction cs with
  | nil => exact ⟨rfl, rfl⟩
  | cons c rest ih =>
    refine ⟨?_, ?_⟩
    · show ({ c with closed := true } :: (closeAll rest).1) = _
      rw [ih.1, List.map_cons]
    · show (c.closeErr ++ (closeAll rest).2) = _
      rw [ih.2, List.map_cons, List.flatten_cons]

/-- Claim C8: `Sync` drains both pipelines and returns the combination of the
first error from each (no short-circuit at the first error); `Close` closes
every owned resource handle and returns the aggregation of every error
encountered. -/
theorem sync_close_aggregate (s : LoggerShut) :
    ((s.SyncM).2 = multierrAppend s.reporting.syncErr s.monitor.syncErr ∧
      (s.SyncM).1.reporting.pending = [] ∧
      (s.SyncM).1.monitor.pending = []) ∧
    ((s.CloseM).2 = (s.closers.map Closer.closeErr).flatten ∧
      (s.CloseM).1.closers = s.closers.map (fun c => { c with closed := true })) := by
  refine ⟨⟨rfl, rfl, rfl⟩, ?_, ?_⟩
  · show (closeAll s.closers).2 = _
    exact (closeAll_spec s.closers).2
  · show (closeAll s.closers).1 = _
    exact (closeAll_spec s.closers).1

/-- Claim C1, refuting evidence: `NewChild` does not guarantee an
independent copy: in the concrete chain root → `With{foo:42}` →
`NewChild{lvl:1}` → `NewChild{lvl:2}` (length 3, capacity 4), the two
siblings `A := NewChild(nil, {who:1})` and `B := NewChild(nil, {who:2})`
derived from the grandchild share its backing array; B's derivation
overwrites the cell A's header exposes, so after deriving B, A's
accumulated fields — and the record `A.Info` emits — carry `{who:2}` in
place of `{who:1}`, and deriving B changed what A observes. -/
theorem newChild_sibling_contamination :
    readSlice stepA.1 stepA.2.fields =
      [Int64Field "foo" 42, Int64Field "lvl" 1, Int64Field "lvl" 2, Int64Field "who" 1] ∧
    readSlice stepB.1 stepA.2.fields =
      [Int64Field "foo" 42, Int64Field "lvl" 1, Int64Field "lvl" 2, Int64Field "who" 2] ∧
    stepA.2.fields.aid = stepG2.2.fields.aid ∧
    (stepA.2.denote stepB.1).Info "" [] ≠ (stepA.2.denote stepA.1).Info "" [] := by
  refine ⟨by decide, by decide, by decide, by decide⟩

end Caring
